import Mathlib

/-!
Shallow embedding of the account-rotation decision engine of Code Revolver
(`src/hooks/useAccounts.ts` together with the data model of `src/types.ts`),
and proofs about its scoring, candidate selection, auto-switch loop, switch
execution, usage-fetch failure handling and pool-metadata normalization.

Modelling conventions:
* JavaScript numbers are modelled as rationals (`ℚ`); timestamps keep the
  units the source uses at each site (`Date.now()` produces milliseconds).
* The TS optional chain `x?.f ?? d` is `Option` plus `getD d`; the numeric
  default `x || 0` coincides with `getD 0` for total rational values, since
  `0 || 0` and `0 ?? 0` agree.
* The optional TS boolean `isTokenExpired` is modelled as `Bool`; the source
  only ever tests it for truthiness, and `undefined` is falsy like `false`.
* `Array.prototype.sort` is stable (ES2019), so it is modelled by
  `List.mergeSort`, which is stable, with the boolean relation induced by the
  numeric comparator of the source.
* The source re-sorts its live list with `compareAccountsByWeeklyReset` after
  per-account updates; that step permutes entries for presentation and changes
  no account's fields, so the per-account update functions are modelled and
  the presentation permutation is not.
-/

namespace CodeRevolver

/-- Quota window of `UsageInfo` in `types.ts`: `usedPercent`, optional
`windowMinutes`, optional `resetsAt` (the backend reports epoch seconds, see
the comment at `getWeeklyResetEtaMs` in `useAccounts.ts`). -/
structure UsageWindow where
  usedPercent : ℚ
  windowMinutes : Option ℚ := none
  resetsAt : Option ℚ := none
deriving DecidableEq

/-- `UsageInfo` of `types.ts`: both windows optional. -/
structure UsageInfo where
  primaryWindow : Option UsageWindow := none
  secondaryWindow : Option UsageWindow := none
  planType : Option String := none
deriving DecidableEq

/-- `AccountPoolMetadata` of `types.ts`. -/
structure AccountPoolMetadata where
  priority : ℚ
deriving DecidableEq

/-- `DEFAULT_ACCOUNT_POOL_METADATA` of `types.ts`. -/
def DEFAULT_ACCOUNT_POOL_METADATA : AccountPoolMetadata :=
  { priority := 5 }

/-- `AccountInfo` of `types.ts`, restricted to the fields the rotation engine
reads or writes (the remaining fields are display-only strings). -/
structure AccountInfo where
  id : String := ""
  name : String := ""
  email : String := ""
  planType : String := ""
  isActive : Bool := false
  filePath : String := ""
  usage : Option UsageInfo := none
  lastUsageUpdate : Option ℚ := none
  isTokenExpired : Bool := false
  pool : Option AccountPoolMetadata := none
deriving DecidableEq

/-- `MutationResult` of `types.ts`. -/
structure MutationResult where
  success : Bool
  message : Option String := none
deriving DecidableEq

/-- A `UsageCacheEntry` of `useAccounts.ts`. -/
structure UsageCacheEntry where
  usage : UsageInfo
  cachedAt : ℚ
deriving DecidableEq

/-- External pool-metadata input of `normalizePoolMetadata (metadata?: unknown)`:
a finite number, a non-finite number (`NaN`/`±Infinity`, for which
`Number.isFinite` fails), an object with an optional finite numeric `priority`
field, or any other value (`undefined`, `null`, strings, booleans, ...),
for which the source falls back to the default priority. -/
inductive PoolMetaInput where
  | num (value : ℚ)
  | nanNum
  | obj (priority : Option ℚ)
  | other
deriving DecidableEq

/-- The fields of `AppSettings` the rotation engine reads. `accountPool` is the
keyed metadata map, modelled as a lookup function (absent key = `none`). -/
structure AppSettings where
  autoCheck : Bool := true
  checkInterval : ℚ := 30
  enableAutoSwitch : Bool := false
  autoSwitchThreshold : ℚ := 5
  accountPool : String → Option PoolMetaInput := fun _ => none

/-- `DEFAULT_SETTINGS` of `types.ts` (the rotation-relevant fields). -/
def DEFAULT_SETTINGS : AppSettings := {}

/-- `Number.MAX_SAFE_INTEGER`, the sentinel `calculateSwitchScore` uses for an
absent `secondaryWindow.resetsAt`. -/
def MAX_SAFE_INTEGER : ℚ := 9007199254740991

/-- `account.usage?.primaryWindow?.usedPercent ?? 100` (scoring reads a missing
window as 100% used). -/
def primaryPercentForScore (account : AccountInfo) : ℚ :=
  (((account.usage.bind UsageInfo.primaryWindow).map UsageWindow.usedPercent).getD 100)

/-- `account.usage?.secondaryWindow?.usedPercent ?? 100` (scoring reads a
missing window as 100% used). -/
def secondaryPercentForScore (account : AccountInfo) : ℚ :=
  (((account.usage.bind UsageInfo.secondaryWindow).map UsageWindow.usedPercent).getD 100)

/-- `(acc.usage?.primaryWindow?.usedPercent || 0)` as the filters and the
auto-switch trigger of `useAccounts.ts` read it: a missing window is 0. -/
def primaryPercentOrZero (account : AccountInfo) : ℚ :=
  (((account.usage.bind UsageInfo.primaryWindow).map UsageWindow.usedPercent).getD 0)

/-- `(acc.usage?.secondaryWindow?.usedPercent || 0)` as the filters and the
auto-switch trigger of `useAccounts.ts` read it: a missing window is 0. -/
def secondaryPercentOrZero (account : AccountInfo) : ℚ :=
  (((account.usage.bind UsageInfo.secondaryWindow).map UsageWindow.usedPercent).getD 0)

/-- `account.usage?.secondaryWindow?.resetsAt`. -/
def secondaryResetsAt (account : AccountInfo) : Option ℚ :=
  (account.usage.bind UsageInfo.secondaryWindow).bind UsageWindow.resetsAt

/-- `calculateSwitchScore` of `useAccounts.ts`. `nowMs` is `Date.now()`, in
milliseconds. The source compares `weeklyResetAt` to `Number.MAX_SAFE_INTEGER`
with `===` to detect an absent reset time and otherwise divides the clamped
difference by `1000 * 60 * 60`. -/
def calculateSwitchScore (nowMs : ℚ) (account : AccountInfo) : ℚ :=
  let priority := ((account.pool.map AccountPoolMetadata.priority).getD DEFAULT_ACCOUNT_POOL_METADATA.priority)
  let primaryUsage := primaryPercentForScore account
  let weeklyUsage := secondaryPercentForScore account
  let usageScore := 200 - primaryUsage - weeklyUsage
  let weeklyResetAt := (secondaryResetsAt account).getD MAX_SAFE_INTEGER
  let resetPenalty :=
    if weeklyResetAt = MAX_SAFE_INTEGER then 10000
    else max 0 (weeklyResetAt - nowMs) / (1000 * 60 * 60)
  priority * 1000 + usageScore * 5 - resetPenalty

/-- Scoring formula as the specification words it (§4.2 of the spec and the
data model's reading of `resetsAt` as an epoch-seconds timestamp): the reset
penalty is `max(0, secondaryResetsAt - now)` expressed in hours, with both
times in seconds. `nowSec` is the same instant as `calculateSwitchScore`'s
`nowMs`, expressed in seconds. Kept separate so the code's formula can be
compared against the claimed one. -/
def specSwitchScore (nowSec : ℚ) (account : AccountInfo) : ℚ :=
  let priority := ((account.pool.map AccountPoolMetadata.priority).getD DEFAULT_ACCOUNT_POOL_METADATA.priority)
  let usageScore := 200 - primaryPercentForScore account - secondaryPercentForScore account
  let resetPenalty :=
    match secondaryResetsAt account with
    | none => 10000
    | some resetsAtSec => max 0 (resetsAtSec - nowSec) / 3600
  priority * 1000 + usageScore * 5 - resetPenalty

/-- The ordering the source's comparator `calculateSwitchScore(b) -
calculateSwitchScore(a)` induces on a JavaScript ascending sort: `a` may come
before `b` exactly when `score b ≤ score a`, i.e. scores descend. -/
def switchScoreDesc (nowMs : ℚ) (a b : AccountInfo) : Bool :=
  decide (calculateSwitchScore nowMs b ≤ calculateSwitchScore nowMs a)

/-- `checkAutoSwitch` of `useAccounts.ts`, as the decision it reaches: `some
filePath` when it executes a switch to that account, `none` when it is a
no-op (auto-switch disabled, no active account, trigger condition false, or an
empty candidate set — in each of those cases the active account is left as it
is). The source sorts the candidates with the `calculateSwitchScore`
comparator and switches to `candidates[0]`. -/
def checkAutoSwitch (settings : AppSettings) (nowMs : ℚ) (accounts : List AccountInfo) : Option String :=
  if settings.enableAutoSwitch then
    match accounts.find? (fun a => a.isActive) with
    | none => none
    | some activeAccount =>
      let threshold := max 1 (min 50
        (if settings.autoSwitchThreshold = 0 then DEFAULT_SETTINGS.autoSwitchThreshold
         else settings.autoSwitchThreshold))
      let usedPercentLimit := 100 - threshold
      let isExpired := activeAccount.isTokenExpired
      let isPrimaryFull := decide (usedPercentLimit ≤ primaryPercentOrZero activeAccount)
      let isSecondaryFull := decide (usedPercentLimit ≤ secondaryPercentOrZero activeAccount)
      if isExpired || isPrimaryFull || isSecondaryFull then
        let candidates := accounts.filter (fun acc =>
          !acc.isActive && !acc.isTokenExpired &&
          decide (primaryPercentOrZero acc < usedPercentLimit) &&
          decide (secondaryPercentOrZero acc < usedPercentLimit))
        match (candidates.mergeSort (switchScoreDesc nowMs)).head? with
        | some bestAccount => some bestAccount.filePath
        | none => none
      else none
  else none

/-- `bestCandidateFilePath` of `useAccounts.ts` (the spec's
`bestSwitchTarget()`): filter out expired accounts and accounts at ≥ 99% in
either window (as the source reads a missing window, `|| 0`), sort by score
descending, return the first file path; `none` when no account qualifies. -/
def bestCandidateFilePath (nowMs : ℚ) (accounts : List AccountInfo) : Option String :=
  let candidates := accounts.filter (fun acc =>
    !acc.isTokenExpired &&
    decide (primaryPercentOrZero acc < 99) &&
    decide (secondaryPercentOrZero acc < 99))
  match (candidates.mergeSort (switchScoreDesc nowMs)).head? with
  | some best => some best.filePath
  | none => none

/-- `rankedCandidates` of `useAccounts.ts`: the `bestCandidateFilePath` filter
plus exclusion of the active account, sorted by score descending, first 4. -/
def rankedCandidates (nowMs : ℚ) (accounts : List AccountInfo) : List AccountInfo :=
  let candidates := accounts.filter (fun acc =>
    !acc.isTokenExpired && !acc.isActive &&
    decide (primaryPercentOrZero acc < 99) &&
    decide (secondaryPercentOrZero acc < 99))
  ((candidates.mergeSort (switchScoreDesc nowMs)).take 4)

/-- The optimistic per-account update `switchAccount` applies on successful
activation: the target becomes active, a previously active account becomes
inactive, all else is untouched. -/
def applySwitchActive (filePath : String) (acc : AccountInfo) : AccountInfo :=
  if acc.filePath = filePath then { acc with isActive := true }
  else if acc.isActive then { acc with isActive := false }
  else acc

/-- `switchAccount` of `useAccounts.ts`, as a function of the single external
activation outcome (`invoke('switch_account')` succeeding or throwing with
`activationError`; the source performs exactly one activation attempt and no
retry). Result: the account list after the operation, the `MutationResult`
returned to the caller, and whether a full refresh is triggered afterwards.
On failure the catch handler returns immediately: no flag is touched and no
refresh runs. -/
def switchAccount (activationSucceeds : Bool) (activationError : String)
    (filePath : String) (accounts : List AccountInfo) :
    List AccountInfo × MutationResult × Bool :=
  if activationSucceeds then
    (accounts.map (applySwitchActive filePath),
     { success := true, message := some ("Account switched") }, true)
  else
    (accounts, { success := false, message := some activationError }, false)

/-- Containment of one character list in another, at any position. -/
def charsContain (hay needle : List Char) : Bool :=
  match hay with
  | [] => needle.isEmpty
  | _ :: t => needle.isPrefixOf hay || charsContain t needle

/-- The `String(error)` classification in the `fetchUsage` catch handler of
`refresh`: `errStr.includes('401') || errStr.includes('403') ||
errStr.includes('Status: 401') || errStr.includes('Status: 403')`. -/
def isAuthRejectionError (errStr : String) : Bool :=
  charsContain errStr.data ("401").data || charsContain errStr.data ("403").data ||
  charsContain errStr.data ("Status: 401").data || charsContain errStr.data ("Status: 403").data

/-- The per-account update the `fetchUsage` catch handler of `refresh` applies:
for the account whose fetch failed, restore the cached usage (`cached?.usage`),
set `lastUsageUpdate` to `cached?.cachedAt ?? Date.now()` and set
`isTokenExpired` from the 401/403 classification of the stringified error;
every other account is returned as it is. `cached` is `usageCache[filePath]`. -/
def applyFetchFailureToAccount (errStr : String) (cached : Option UsageCacheEntry)
    (nowMs : ℚ) (filePath : String) (item : AccountInfo) : AccountInfo :=
  if item.filePath = filePath then
    { item with
      usage := cached.map UsageCacheEntry.usage,
      lastUsageUpdate := some ((cached.map UsageCacheEntry.cachedAt).getD nowMs),
      isTokenExpired := isAuthRejectionError errStr }
  else item

/-- The whole `setAccounts` update of the `fetchUsage` catch handler (before
the presentation re-sort, which permutes entries without changing fields). -/
def applyFetchFailure (errStr : String) (cached : Option UsageCacheEntry)
    (nowMs : ℚ) (filePath : String) (accounts : List AccountInfo) : List AccountInfo :=
  accounts.map (applyFetchFailureToAccount errStr cached nowMs filePath)

/-- `Math.round` for finite numbers: round half toward positive infinity. -/
def jsRound (q : ℚ) : ℤ := ⌊q + 1 / 2⌋

/-- The priority computed by `normalizePoolMetadata` of `useAccounts.ts`:
`Number(...)` of the supplied number or of the object's `priority ?? 5`,
then — when finite — `Math.max(1, Math.min(10, Math.round(...)))`, else the
default 5. -/
def normalizePoolPriority : PoolMetaInput → ℚ
  | PoolMetaInput.num v => ((max 1 (min 10 (jsRound v)) : ℤ) : ℚ)
  | PoolMetaInput.nanNum => DEFAULT_ACCOUNT_POOL_METADATA.priority
  | PoolMetaInput.obj (some p) => ((max 1 (min 10 (jsRound p)) : ℤ) : ℚ)
  | PoolMetaInput.obj none =>
      ((max 1 (min 10 (jsRound DEFAULT_ACCOUNT_POOL_METADATA.priority)) : ℤ) : ℚ)
  | PoolMetaInput.other =>
      ((max 1 (min 10 (jsRound DEFAULT_ACCOUNT_POOL_METADATA.priority)) : ℤ) : ℚ)

/-- `normalizePoolMetadata` of `useAccounts.ts` (`undefined` argument =
`none`, which takes the same path as any other non-number non-object). -/
def normalizePoolMetadata (metadata : Option PoolMetaInput) : AccountPoolMetadata :=
  { priority := normalizePoolPriority (metadata.getD PoolMetaInput.other) }

/-- The per-account seeding step of `refresh` (`baseAccounts`): merge the
normalized pool metadata looked up under the id key or, failing that, the
file-path key (`settings.accountPool[account.id] ||
settings.accountPool[account.filePath]`), seed usage from the cache, set
`lastUsageUpdate` to `cached?.cachedAt ?? Date.now()` and mark the account
provisionally non-expired. -/
def refreshSeedAccount (settings : AppSettings) (usageCache : String → Option UsageCacheEntry)
    (nowMs : ℚ) (account : AccountInfo) : AccountInfo :=
  let rawPoolMetadata := (settings.accountPool account.id).orElse
    (fun _ => settings.accountPool account.filePath)
  let pool := normalizePoolMetadata rawPoolMetadata
  let cached := usageCache account.filePath
  { account with
    usage := cached.map UsageCacheEntry.usage,
    lastUsageUpdate := some ((cached.map UsageCacheEntry.cachedAt).getD nowMs),
    isTokenExpired := false,
    pool := some pool }

/-- `updateAccountPoolMetadata` of `useAccounts.ts`, restricted to its
account-list update: the supplied metadata is normalized once and stored on
every account with the given id (the same normalized value is also persisted
to settings, which this list-level model does not track). -/
def updateAccountPoolMetadata (accountId : String) (metadata : PoolMetaInput)
    (accounts : List AccountInfo) : List AccountInfo :=
  let normalized := normalizePoolMetadata (some metadata)
  accounts.map (fun acc => if acc.id = accountId then { acc with pool := some normalized } else acc)

/-- Candidate predicate of the auto-switch loop (step 4 of spec §4.5), with
window percentages read the way the source reads them (`|| 0`). -/
def autoCandidateOk (usedPercentLimit : ℚ) (acc : AccountInfo) : Prop :=
  acc.isActive = false ∧ acc.isTokenExpired = false ∧
  primaryPercentOrZero acc < usedPercentLimit ∧
  secondaryPercentOrZero acc < usedPercentLimit

/-- Trigger condition of the auto-switch loop (step 3 of spec §4.5), with
window percentages read the way the source reads them (`|| 0`). -/
def autoTrigger (usedPercentLimit : ℚ) (active : AccountInfo) : Prop :=
  active.isTokenExpired = true ∨
  usedPercentLimit ≤ primaryPercentOrZero active ∨
  usedPercentLimit ≤ secondaryPercentOrZero active

/-- Filter of `bestCandidateFilePath` (and, with active-exclusion added, of
`rankedCandidates`): not expired and strictly below 99% in both windows as the
source reads them (`|| 0`). -/
def bestFilterOk (acc : AccountInfo) : Prop :=
  acc.isTokenExpired = false ∧
  primaryPercentOrZero acc < 99 ∧ secondaryPercentOrZero acc < 99

/-- The comparator relation is transitive. -/
theorem switchScoreDesc_trans (nowMs : ℚ) (a b c : AccountInfo)
    (hab : switchScoreDesc nowMs a b = true) (hbc : switchScoreDesc nowMs b c = true) :
    switchScoreDesc nowMs a c = true := by
  simp only [switchScoreDesc, decide_eq_true_eq] at hab hbc ⊢
  exact le_trans hbc hab

/-- The comparator relation is total. -/
theorem switchScoreDesc_total (nowMs : ℚ) (a b : AccountInfo) :
    (switchScoreDesc nowMs a b || switchScoreDesc nowMs b a) = true := by
  simp only [switchScoreDesc, Bool.or_eq_true, decide_eq_true_eq]
  exact le_total _ _

/-- The head of the sorted candidate list is a member of maximal score. -/
theorem mergeSort_head_score_max (nowMs : ℚ) (l : List AccountInfo) (x : AccountInfo)
    (hx : (l.mergeSort (switchScoreDesc nowMs)).head? = some x) :
    x ∈ l ∧ ∀ y ∈ l, calculateSwitchScore nowMs y ≤ calculateSwitchScore nowMs x := by
  have hperm := List.mergeSort_perm l (switchScoreDesc nowMs)
  have hsorted := @List.sorted_mergeSort _ (switchScoreDesc nowMs)
      (switchScoreDesc_trans nowMs) (switchScoreDesc_total nowMs) l
  cases hs : l.mergeSort (switchScoreDesc nowMs) with
  | nil => rw [hs] at hx; simp at hx
  | cons hd tl =>
    rw [hs] at hx hperm hsorted
    have hxhd : hd = x := by simpa using hx
    subst hxhd
    refine ⟨hperm.mem_iff.mp (List.mem_cons_self _ _), ?_⟩
    intro y hy
    have hy2 : y ∈ hd :: tl := hperm.mem_iff.mpr hy
    rcases List.mem_cons.mp hy2 with h | h
    · exact le_of_eq (congrArg _ h)
    · have hrel := List.rel_of_pairwise_cons hsorted h
      simpa [switchScoreDesc, decide_eq_true_eq] using hrel

/-- The sorted candidate list has an empty head exactly for no candidates. -/
theorem mergeSort_head_none_iff (nowMs : ℚ) (l : List AccountInfo) :
    (l.mergeSort (switchScoreDesc nowMs)).head? = none ↔ l = [] := by
  rw [List.head?_eq_none_iff]
  constructor
  · intro h
    have hlen := @List.length_mergeSort _ (switchScoreDesc nowMs) l
    rw [h] at hlen
    exact List.length_eq_zero.mp hlen.symm
  · intro h; subst h; simp

/-- Scenario settings of spec §8: auto-switch enabled, threshold 5. -/
def scenarioSettings : AppSettings :=
  { enableAutoSwitch := true, autoSwitchThreshold := 5 }

/-- Scenario account A of spec §8: active, secondary window at 96%. -/
def accA : AccountInfo :=
  { id := "a", name := "A", isActive := true, filePath := "a",
    usage := some { primaryWindow := some { usedPercent := 10 },
                    secondaryWindow := some { usedPercent := 96 } },
    pool := some { priority := 5 } }

/-- Scenario account B of spec §8: 80% usage, priority 5. -/
def accB : AccountInfo :=
  { id := "b", name := "B", isActive := false, filePath := "b",
    usage := some { primaryWindow := some { usedPercent := 80 },
                    secondaryWindow := some { usedPercent := 80 } },
    pool := some { priority := 5 } }

/-- Scenario account C of spec §8: 10% usage, priority 9. -/
def accC : AccountInfo :=
  { id := "c", name := "C", isActive := false, filePath := "c",
    usage := some { primaryWindow := some { usedPercent := 10 },
                    secondaryWindow := some { usedPercent := 10 } },
    pool := some { priority := 9 } }

/-- The boolean candidate filter inside `checkAutoSwitch` decides
`autoCandidateOk`. -/
theorem autoCandidateOk_iff (L : ℚ) (c : AccountInfo) :
    (!c.isActive && !c.isTokenExpired &&
      decide (primaryPercentOrZero c < L) &&
      decide (secondaryPercentOrZero c < L)) = true ↔ autoCandidateOk L c := by
  simp [autoCandidateOk, Bool.and_eq_true, Bool.not_eq_true']
  tauto

/-- The boolean trigger test inside `checkAutoSwitch` decides `autoTrigger`. -/
theorem autoTrigger_iff (L : ℚ) (a : AccountInfo) :
    (a.isTokenExpired || decide (L ≤ primaryPercentOrZero a) ||
      decide (L ≤ secondaryPercentOrZero a)) = true ↔ autoTrigger L a := by
  simp [autoTrigger, Bool.or_eq_true]
  tauto

/-- Claim C1: for every settled state with auto-switch enabled, an active
account found and the threshold in [1,50] (so `usedPercentLimit = 100 -
threshold`), the auto-switch loop performs a switch iff the active account is
expired or at/above the limit in either window AND a candidate (non-active,
non-expired, both windows below the limit) exists; the chosen target is a
candidate of maximal `calculateSwitchScore`; otherwise it is a no-op (`none`,
the active account untouched). In the concrete scenario of spec §8 (active A
at secondary 96%, threshold 5 so limit 95, B at 80% priority 5, C at 10%
priority 9) it selects C. -/
theorem claim_C1 :
    (∀ (settings : AppSettings) (nowMs : ℚ) (accounts : List AccountInfo) (active : AccountInfo),
      settings.enableAutoSwitch = true →
      1 ≤ settings.autoSwitchThreshold → settings.autoSwitchThreshold ≤ 50 →
      accounts.find? (fun a => a.isActive) = some active →
      (((checkAutoSwitch settings nowMs accounts).isSome = true) ↔
        (autoTrigger (100 - settings.autoSwitchThreshold) active ∧
         ∃ c ∈ accounts, autoCandidateOk (100 - settings.autoSwitchThreshold) c)) ∧
      (∀ p, checkAutoSwitch settings nowMs accounts = some p →
        ∃ c ∈ accounts, c.filePath = p ∧
          autoCandidateOk (100 - settings.autoSwitchThreshold) c ∧
          ∀ d ∈ accounts, autoCandidateOk (100 - settings.autoSwitchThreshold) d →
            calculateSwitchScore nowMs d ≤ calculateSwitchScore nowMs c)) ∧
    checkAutoSwitch scenarioSettings 0 [accA, accB, accC] = some ("c") := by
  constructor
  · intro settings nowMs accounts active hEn h1 h50 hFind
    have hne : ¬ settings.autoSwitchThreshold = 0 := by intro h; rw [h] at h1; linarith
    have hclamp : max 1 (min 50
        (if settings.autoSwitchThreshold = 0 then DEFAULT_SETTINGS.autoSwitchThreshold
         else settings.autoSwitchThreshold)) = settings.autoSwitchThreshold := by
      rw [if_neg hne, min_eq_right h50, max_eq_right h1]
    set L := 100 - settings.autoSwitchThreshold with hL
    have hck : checkAutoSwitch settings nowMs accounts =
        (if (active.isTokenExpired || decide (L ≤ primaryPercentOrZero active) ||
              decide (L ≤ secondaryPercentOrZero active)) then
          (match ((accounts.filter (fun acc =>
              !acc.isActive && !acc.isTokenExpired &&
              decide (primaryPercentOrZero acc < L) &&
              decide (secondaryPercentOrZero acc < L))).mergeSort
                (switchScoreDesc nowMs)).head? with
           | some bestAccount => some bestAccount.filePath
           | none => none)
         else none) := by
      rw [checkAutoSwitch, hEn, if_pos rfl, hFind]
      simp only [hclamp]
    set candidates := accounts.filter (fun acc =>
        !acc.isActive && !acc.isTokenExpired &&
        decide (primaryPercentOrZero acc < L) &&
        decide (secondaryPercentOrZero acc < L)) with hcand
    have hex : (∃ c ∈ accounts, autoCandidateOk L c) ↔ ¬ candidates = [] := by
      rw [hcand]
      constructor
      · rintro ⟨c, hc, hok⟩ hnil
        have := List.filter_eq_nil_iff.mp hnil c hc
        exact this ((autoCandidateOk_iff L c).mpr hok)
      · intro hnil
        rcases List.exists_mem_of_ne_nil _ hnil with ⟨c, hc⟩
        rcases List.mem_filter.mp hc with ⟨hmem, hok⟩
        exact ⟨c, hmem, (autoCandidateOk_iff L c).mp hok⟩
    by_cases htrig : (active.isTokenExpired || decide (L ≤ primaryPercentOrZero active) ||
        decide (L ≤ secondaryPercentOrZero active)) = true
    · have htrigP : autoTrigger L active := (autoTrigger_iff L active).mp htrig
      rw [htrig, if_pos rfl] at hck
      constructor
      · cases ho : (candidates.mergeSort (switchScoreDesc nowMs)).head? with
        | none =>
          have hnil : candidates = [] := (mergeSort_head_none_iff nowMs candidates).mp ho
          rw [hck, ho]
          simp only [Option.isSome_none, Bool.false_eq_true, false_iff]
          rintro ⟨-, hexists⟩
          exact (hex.mp hexists) hnil
        | some best =>
          rw [hck, ho]
          simp only [Option.isSome_some, true_iff]
          refine ⟨htrigP, hex.mpr ?_⟩
          intro hnil
          rw [hnil] at ho
          simp at ho
      · intro p hp
        rw [hck] at hp
        cases ho : (candidates.mergeSort (switchScoreDesc nowMs)).head? with
        | none => rw [ho] at hp; exact absurd hp (by simp)
        | some best =>
          rw [ho] at hp
          have hpb : best.filePath = p := by simpa using hp
          rcases mergeSort_head_score_max nowMs candidates best ho with ⟨hmem, hmax⟩
          rcases List.mem_filter.mp hmem with ⟨hacc, hok⟩
          refine ⟨best, hacc, hpb, (autoCandidateOk_iff L best).mp hok, ?_⟩
          intro d hd hdok
          exact hmax d (List.mem_filter.mpr ⟨hd, (autoCandidateOk_iff L d).mpr hdok⟩)
    · rw [Bool.not_eq_true] at htrig
      rw [htrig] at hck
      simp only [Bool.false_eq_true, if_false] at hck
      constructor
      · rw [hck]
        simp only [Option.isSome_none, Bool.false_eq_true, false_iff]
        rintro ⟨htrigP, -⟩
        have := (autoTrigger_iff L active).mpr htrigP
        rw [htrig] at this
        exact absurd this (by simp)
      · intro p hp
        rw [hck] at hp
        exact absurd hp (by simp)
  · norm_num [checkAutoSwitch, scenarioSettings, accA, accB, accC, DEFAULT_SETTINGS,
      List.find?, List.filter, primaryPercentOrZero, secondaryPercentOrZero,
      List.mergeSort, List.splitInTwo, List.merge, switchScoreDesc,
      calculateSwitchScore, primaryPercentForScore, secondaryPercentForScore,
      secondaryResetsAt, MAX_SAFE_INTEGER, DEFAULT_ACCOUNT_POOL_METADATA]

/-- Witness for claim C1: the general statement instantiated at the concrete
spec §8 scenario, every hypothesis discharged there. -/
theorem claim_C1_witness :
    ((checkAutoSwitch scenarioSettings 0 [accA, accB, accC]).isSome = true) ↔
      (autoTrigger (100 - scenarioSettings.autoSwitchThreshold) accA ∧
       ∃ c ∈ [accA, accB, accC], autoCandidateOk (100 - scenarioSettings.autoSwitchThreshold) c) :=
  (claim_C1.1 scenarioSettings 0 [accA, accB, accC] accA rfl
    (by norm_num [scenarioSettings]) (by norm_num [scenarioSettings]) rfl).1

/-- Failing input for claim C2: priority 5, both windows at 0%, and
`secondaryWindow.resetsAt = 1700003600` — an epoch-seconds timestamp one hour
after the evaluation instant 1700000000 s (= 1700000000000 ms). -/
def accReset : AccountInfo :=
  { id := "r", name := "R", isActive := false, filePath := "r",
    usage := some { primaryWindow := some { usedPercent := 0 },
                    secondaryWindow := some { usedPercent := 0, resetsAt := some 1700003600 } },
    pool := some { priority := 5 } }

/-- Claim C2 (code bug): per the claim, with `resetsAt` an epoch-seconds
timestamp one hour in the future, `resetPenalty` should be 1 hour, giving
score 5999. The code instead subtracts `Date.now()` (milliseconds) from the
seconds value, so the clamped difference is 0 and the score is 6000: the
penalty term is inert for every realistic epoch-seconds `resetsAt`, even
though the neighbouring `getWeeklyResetEtaMs` documents the seconds unit and
converts. -/
theorem claim_C2 :
    calculateSwitchScore (1700000000 * 1000) accReset = 6000 ∧
    specSwitchScore 1700000000 accReset = 5999 ∧ (6000 : ℚ) ≠ 5999 := by
  refine ⟨?_, ?_, by norm_num⟩
  · norm_num [calculateSwitchScore, primaryPercentForScore, secondaryPercentForScore,
      secondaryResetsAt, accReset, MAX_SAFE_INTEGER, DEFAULT_ACCOUNT_POOL_METADATA]
  · norm_num [specSwitchScore, primaryPercentForScore, secondaryPercentForScore,
      secondaryResetsAt, accReset, DEFAULT_ACCOUNT_POOL_METADATA]

/-- A cached usage snapshot for the C3 scenario: cached at time 100 ms. -/
def cacheEntryX : UsageCacheEntry :=
  { usage := { primaryWindow := some { usedPercent := 40 } }, cachedAt := 100 }

/-- An account whose usage fetch fails in the C3 scenario. -/
def accD : AccountInfo :=
  { id := "d", name := "D", filePath := "d", lastUsageUpdate := some 50 }

/-- Counterexample for claim C3: a non-auth failure ("network down") at time
200 ms for an account with a cache entry from time 100 ms sets
`lastUsageUpdate` to the cached entry's `cachedAt` (100), not to the
timestamp of the failed attempt (200), contradicting the claim. -/
theorem claim_C3_counterexample :
    isAuthRejectionError ("network down") = false ∧
    (applyFetchFailureToAccount ("network down") (some cacheEntryX) 200 ("d") accD).lastUsageUpdate
      = some 100 ∧
    ¬ (applyFetchFailureToAccount ("network down") (some cacheEntryX) 200 ("d") accD).lastUsageUpdate
      = some 200 := by
  refine ⟨by decide, ?_, ?_⟩
  · simp [applyFetchFailureToAccount, accD, cacheEntryX]
  · norm_num [applyFetchFailureToAccount, accD, cacheEntryX]

/-- Claim C3 as amended: on a `fetchUsage` failure the failed account — and
only that account — is updated: `isTokenExpired` is set exactly by the
401/403 classification of the stringified error, the previously cached usage
is restored, and `lastUsageUpdate` is set to the cached entry's `cachedAt`
when a cache entry exists and to the failed attempt's timestamp only when
none does; all identity/activity fields are untouched, and every other
account is returned unchanged. -/
theorem claim_C3 :
    ∀ (errStr : String) (cached : Option UsageCacheEntry) (nowMs : ℚ) (path : String)
      (accounts : List AccountInfo),
      applyFetchFailure errStr cached nowMs path accounts =
        accounts.map (applyFetchFailureToAccount errStr cached nowMs path) ∧
      (∀ item : AccountInfo, ¬ item.filePath = path →
        applyFetchFailureToAccount errStr cached nowMs path item = item) ∧
      (∀ item : AccountInfo, item.filePath = path →
        (applyFetchFailureToAccount errStr cached nowMs path item).isTokenExpired
          = isAuthRejectionError errStr ∧
        (applyFetchFailureToAccount errStr cached nowMs path item).usage
          = cached.map UsageCacheEntry.usage ∧
        (applyFetchFailureToAccount errStr cached nowMs path item).lastUsageUpdate
          = some ((cached.map UsageCacheEntry.cachedAt).getD nowMs) ∧
        (applyFetchFailureToAccount errStr cached nowMs path item).id = item.id ∧
        (applyFetchFailureToAccount errStr cached nowMs path item).name = item.name ∧
        (applyFetchFailureToAccount errStr cached nowMs path item).filePath = item.filePath ∧
        (applyFetchFailureToAccount errStr cached nowMs path item).isActive = item.isActive ∧
        (applyFetchFailureToAccount errStr cached nowMs path item).pool = item.pool) := by
  intro errStr cached nowMs path accounts
  refine ⟨rfl, ?_, ?_⟩
  · intro item hne
    simp [applyFetchFailureToAccount, hne]
  · intro item heq
    simp [applyFetchFailureToAccount, heq]

/-- Witness for claim C3: the amended statement applied to the concrete C3
scenario account, the matching-path hypothesis discharged there. -/
theorem claim_C3_witness :
    (applyFetchFailureToAccount ("network down") (some cacheEntryX) 200 ("d") accD).isTokenExpired
      = isAuthRejectionError ("network down") :=
  ((claim_C3 ("network down") (some cacheEntryX) 200 ("d") [accD]).2.2 accD rfl).1

/-- An account with no usage snapshot at all (both windows unknown), not
expired, not active. -/
def accU : AccountInfo :=
  { id := "u", name := "U", filePath := "u" }

/-- An active account with no usage snapshot, for the C7 trigger side. -/
def accUA : AccountInfo :=
  { id := "ua", name := "UA", isActive := true, filePath := "ua" }

/-- Counterexample for claim C7: an account with no usage snapshot passes the
99% filter and is even returned by `bestCandidateFilePath` (under the claim's
worst-case reading its windows would count as 100% ≥ 99% and it would be
excluded, making the result `none`); and an active account with no usage
snapshot does not trigger auto-switch even with a perfect candidate available
(under the claim's reading, 100% ≥ limit would trigger a switch to C). -/
theorem claim_C7_counterexample :
    accU.usage = none ∧ accU.isTokenExpired = false ∧
    bestCandidateFilePath 0 [accU] = some ("u") ∧
    accUA.usage = none ∧ accUA.isActive = true ∧
    checkAutoSwitch scenarioSettings 0 [accUA, accC] = none := by
  refine ⟨rfl, rfl, ?_, rfl, rfl, ?_⟩
  · norm_num [bestCandidateFilePath, accU, List.filter, primaryPercentOrZero,
      secondaryPercentOrZero, List.mergeSort]
  · norm_num [checkAutoSwitch, scenarioSettings, accUA, accC, DEFAULT_SETTINGS,
      List.find?, primaryPercentOrZero, secondaryPercentOrZero]

/-- Claim C7 as amended: only the scoring function treats a missing window
conservatively as 100% used; the 99% filter of `bestCandidateFilePath` /
`rankedCandidates`, the auto-switch trigger and the auto-switch candidate
filter all read a missing window as 0 (`|| 0`), so an account with unknown
usage is never excluded on usage grounds and never triggers a switch on usage
grounds. -/
theorem claim_C7 :
    ∀ (acc : AccountInfo),
      (acc.usage.bind UsageInfo.primaryWindow = none →
        primaryPercentForScore acc = 100 ∧ primaryPercentOrZero acc = 0) ∧
      (acc.usage.bind UsageInfo.secondaryWindow = none →
        secondaryPercentForScore acc = 100 ∧ secondaryPercentOrZero acc = 0) ∧
      (acc.usage.bind UsageInfo.primaryWindow = none →
       acc.usage.bind UsageInfo.secondaryWindow = none →
        (bestFilterOk acc ↔ acc.isTokenExpired = false) ∧
        (∀ L : ℚ, 0 < L →
          (autoCandidateOk L acc ↔ acc.isActive = false ∧ acc.isTokenExpired = false)) ∧
        (∀ L : ℚ, 0 < L → (autoTrigger L acc ↔ acc.isTokenExpired = true))) := by
  intro acc
  refine ⟨?_, ?_, ?_⟩
  · intro h
    constructor
    · simp [primaryPercentForScore, h]
    · simp [primaryPercentOrZero, h]
  · intro h
    constructor
    · simp [secondaryPercentForScore, h]
    · simp [secondaryPercentOrZero, h]
  · intro h1 h2
    have hp : primaryPercentOrZero acc = 0 := by simp [primaryPercentOrZero, h1]
    have hs : secondaryPercentOrZero acc = 0 := by simp [secondaryPercentOrZero, h2]
    refine ⟨?_, ?_, ?_⟩
    · rw [bestFilterOk, hp, hs]
      constructor
      · exact fun hx => hx.1
      · exact fun hx => ⟨hx, by norm_num, by norm_num⟩
    · intro L hL
      rw [autoCandidateOk, hp, hs]
      constructor
      · exact fun hx => ⟨hx.1, hx.2.1⟩
      · exact fun hx => ⟨hx.1, hx.2, hL, hL⟩
    · intro L hL
      rw [autoTrigger, hp, hs]
      constructor
      · rintro (hx | hx | hx)
        · exact hx
        · exact absurd hx (by linarith)
        · exact absurd hx (by linarith)
      · exact fun hx => Or.inl hx

/-- Witness for claim C7: the amended statement applied to the concrete
account with no usage snapshot, hypotheses discharged there. -/
theorem claim_C7_witness :
    primaryPercentForScore accU = 100 ∧ primaryPercentOrZero accU = 0 :=
  (claim_C7 accU).1 rfl

/-- The boolean filter inside `bestCandidateFilePath` decides `bestFilterOk`. -/
theorem bestFilterOk_iff (c : AccountInfo) :
    (!c.isTokenExpired &&
      decide (primaryPercentOrZero c < 99) &&
      decide (secondaryPercentOrZero c < 99)) = true ↔ bestFilterOk c := by
  simp [bestFilterOk, Bool.and_eq_true, Bool.not_eq_true']
  tauto

/-- Claim C4: `bestCandidateFilePath` returns `none` exactly when no account
passes the expiry/99% filter, and whenever it returns a path it is the path
of a passing account of maximal `calculateSwitchScore`; in particular the
returned account is never expired nor at ≥ 99% in either window as the
source reads them. -/
theorem claim_C4 :
    ∀ (nowMs : ℚ) (accounts : List AccountInfo),
      (bestCandidateFilePath nowMs accounts = none ↔ ∀ a ∈ accounts, ¬ bestFilterOk a) ∧
      (∀ p, bestCandidateFilePath nowMs accounts = some p →
        ∃ a ∈ accounts, a.filePath = p ∧ bestFilterOk a ∧
          ∀ b ∈ accounts, bestFilterOk b →
            calculateSwitchScore nowMs b ≤ calculateSwitchScore nowMs a) := by
  intro nowMs accounts
  set candidates := accounts.filter (fun acc =>
      !acc.isTokenExpired &&
      decide (primaryPercentOrZero acc < 99) &&
      decide (secondaryPercentOrZero acc < 99)) with hcand
  have hck : bestCandidateFilePath nowMs accounts =
      (match (candidates.mergeSort (switchScoreDesc nowMs)).head? with
       | some best => some best.filePath
       | none => none) := rfl
  cases ho : (candidates.mergeSort (switchScoreDesc nowMs)).head? with
  | none =>
    have hnil : candidates = [] := (mergeSort_head_none_iff nowMs candidates).mp ho
    rw [hck, ho]
    constructor
    · constructor
      · intro _ a ha hok
        have := List.filter_eq_nil_iff.mp hnil a ha
        exact this ((bestFilterOk_iff a).mpr hok)
      · intro _; rfl
    · intro p hp; exact absurd hp (by simp)
  | some best =>
    rw [hck, ho]
    rcases mergeSort_head_score_max nowMs candidates best ho with ⟨hmem, hmax⟩
    rcases List.mem_filter.mp hmem with ⟨hacc, hok⟩
    constructor
    · constructor
      · intro h; exact absurd h (by simp)
      · intro hall
        exact absurd ((bestFilterOk_iff best).mp hok) (hall best hacc)
    · intro p hp
      have hpb : best.filePath = p := by simpa using hp
      refine ⟨best, hacc, hpb, (bestFilterOk_iff best).mp hok, ?_⟩
      intro b hb hbok
      exact hmax b (List.mem_filter.mpr ⟨hb, (bestFilterOk_iff b).mpr hbok⟩)

/-- Witness for claim C4: applied to the concrete pair B, C (both qualify,
C scores higher), discharging the `some`-result hypothesis there. -/
theorem claim_C4_witness :
    ∃ a ∈ [accB, accC], a.filePath = ("c") ∧ bestFilterOk a ∧
      ∀ b ∈ [accB, accC], bestFilterOk b →
        calculateSwitchScore 0 b ≤ calculateSwitchScore 0 a :=
  (claim_C4 0 [accB, accC]).2 ("c") (by
    norm_num [bestCandidateFilePath, accB, accC, List.filter, primaryPercentOrZero,
      secondaryPercentOrZero, List.mergeSort, List.splitInTwo, List.merge,
      switchScoreDesc, calculateSwitchScore, primaryPercentForScore,
      secondaryPercentForScore, secondaryResetsAt, MAX_SAFE_INTEGER,
      DEFAULT_ACCOUNT_POOL_METADATA])

/-- Claim C5: every entry of `rankedCandidates` comes from the account set,
passes the `bestCandidateFilePath` filter and is not the active account; the
list has at most 4 entries, is sorted by score descending, and a qualifying
non-active account is only ever left out when the list is full. -/
theorem claim_C5 :
    ∀ (nowMs : ℚ) (accounts : List AccountInfo),
      (∀ a ∈ rankedCandidates nowMs accounts,
        a ∈ accounts ∧ bestFilterOk a ∧ a.isActive = false) ∧
      (rankedCandidates nowMs accounts).length ≤ 4 ∧
      (rankedCandidates nowMs accounts).Pairwise
        (fun a b => calculateSwitchScore nowMs b ≤ calculateSwitchScore nowMs a) ∧
      (∀ a ∈ accounts, bestFilterOk a → a.isActive = false →
        a ∈ rankedCandidates nowMs accounts ∨ (rankedCandidates nowMs accounts).length = 4) := by
  intro nowMs accounts
  set candidates := accounts.filter (fun acc =>
      !acc.isTokenExpired && !acc.isActive &&
      decide (primaryPercentOrZero acc < 99) &&
      decide (secondaryPercentOrZero acc < 99)) with hcand
  have hbridge : ∀ c : AccountInfo, (!c.isTokenExpired && !c.isActive &&
      decide (primaryPercentOrZero c < 99) &&
      decide (secondaryPercentOrZero c < 99)) = true ↔
        (bestFilterOk c ∧ c.isActive = false) := by
    intro c
    simp [bestFilterOk, Bool.and_eq_true, Bool.not_eq_true']
    tauto
  have hr : rankedCandidates nowMs accounts =
      (candidates.mergeSort (switchScoreDesc nowMs)).take 4 := rfl
  refine ⟨?_, ?_, ?_, ?_⟩
  · intro a ha
    rw [hr] at ha
    have h1 : a ∈ candidates.mergeSort (switchScoreDesc nowMs) := List.mem_of_mem_take ha
    rcases List.mem_filter.mp (List.mem_mergeSort.mp h1) with ⟨hacc, hok⟩
    rcases (hbridge a).mp hok with ⟨hb, hact⟩
    exact ⟨hacc, hb, hact⟩
  · rw [hr]; exact List.length_take_le _ _
  · rw [hr]
    have hsorted := @List.sorted_mergeSort _ (switchScoreDesc nowMs)
        (switchScoreDesc_trans nowMs) (switchScoreDesc_total nowMs) candidates
    have hsorted2 : (candidates.mergeSort (switchScoreDesc nowMs)).Pairwise
        (fun a b => calculateSwitchScore nowMs b ≤ calculateSwitchScore nowMs a) := by
      refine hsorted.imp ?_
      intro a b hab
      simpa [switchScoreDesc, decide_eq_true_eq] using hab
    exact hsorted2.sublist (List.take_sublist _ _)
  · intro a ha hok hact
    by_cases hmem : a ∈ rankedCandidates nowMs accounts
    · exact Or.inl hmem
    · refine Or.inr ?_
      rw [hr] at hmem ⊢
      have hs : a ∈ candidates.mergeSort (switchScoreDesc nowMs) :=
        List.mem_mergeSort.mpr (List.mem_filter.mpr ⟨ha, (hbridge a).mpr ⟨hok, hact⟩⟩)
      have hsplit : a ∈ (candidates.mergeSort (switchScoreDesc nowMs)).take 4 ++
          (candidates.mergeSort (switchScoreDesc nowMs)).drop 4 := by
        rw [List.take_append_drop]; exact hs
      rcases List.mem_append.mp hsplit with h | h
      · exact absurd h hmem
      · have hd : (candidates.mergeSort (switchScoreDesc nowMs)).drop 4 ≠ [] :=
          List.ne_nil_of_mem h
        have hlen : 4 < (candidates.mergeSort (switchScoreDesc nowMs)).length := by
          by_contra hle
          push_neg at hle
          exact hd (List.drop_eq_nil_of_le hle)
        rw [List.length_take]
        exact min_eq_left (le_of_lt hlen)

/-- Witness for claim C5: applied to the concrete scenario set, discharging
the membership hypothesis at account C. -/
theorem claim_C5_witness :
    accC ∈ [accA, accB, accC] ∧ bestFilterOk accC ∧ accC.isActive = false :=
  (claim_C5 0 [accA, accB, accC]).1 accC (by
    norm_num [rankedCandidates, accA, accB, accC, List.filter, primaryPercentOrZero,
      secondaryPercentOrZero, List.mergeSort, List.splitInTwo, List.merge,
      switchScoreDesc, calculateSwitchScore, primaryPercentForScore,
      secondaryPercentForScore, secondaryResetsAt, MAX_SAFE_INTEGER,
      DEFAULT_ACCOUNT_POOL_METADATA])

/-- Claim C6: a failed activation changes no account (in particular no
`isActive` flag), surfaces the stringified error to the caller and triggers
no refresh (the single activation attempt is not retried); a successful
activation flips the target's flag on and every other (previously active)
account's flag off in the local optimistic update — leaving all other fields
untouched — and then triggers a full refresh. -/
theorem claim_C6 :
    ∀ (activationError filePath : String) (accounts : List AccountInfo),
      switchAccount false activationError filePath accounts =
        (accounts, { success := false, message := some activationError }, false) ∧
      switchAccount true activationError filePath accounts =
        (accounts.map (applySwitchActive filePath),
         { success := true, message := some ("Account switched") }, true) ∧
      (∀ acc : AccountInfo,
        ((applySwitchActive filePath acc).isActive = true ↔ acc.filePath = filePath) ∧
        (applySwitchActive filePath acc).id = acc.id ∧
        (applySwitchActive filePath acc).name = acc.name ∧
        (applySwitchActive filePath acc).filePath = acc.filePath ∧
        (applySwitchActive filePath acc).usage = acc.usage ∧
        (applySwitchActive filePath acc).lastUsageUpdate = acc.lastUsageUpdate ∧
        (applySwitchActive filePath acc).isTokenExpired = acc.isTokenExpired ∧
        (applySwitchActive filePath acc).pool = acc.pool) := by
  intro activationError filePath accounts
  refine ⟨rfl, rfl, ?_⟩
  intro acc
  by_cases h : acc.filePath = filePath
  · simp [applySwitchActive, h]
  · by_cases ha : acc.isActive = true
    · simp [applySwitchActive, h, ha]
    · rw [Bool.not_eq_true] at ha
      simp [applySwitchActive, h, ha]

/-- Witness for claim C6: the per-account flag characterization applied to
the concrete account B and target path "b". -/
theorem claim_C6_witness :
    (applySwitchActive ("b") accB).isActive = true ↔ accB.filePath = ("b") :=
  ((claim_C6 ("boom") ("b") [accA, accB]).2.2 accB).1

/-- Claim C8: for a fixed evaluation instant and fixed other fields,
`calculateSwitchScore` is strictly increasing in the pool priority, and
non-increasing in either window's `usedPercent` (the window's reset time and
everything else held fixed). -/
theorem claim_C8 :
    ∀ (nowMs : ℚ) (acc : AccountInfo),
      (∀ q1 q2 : ℚ, q1 < q2 →
        calculateSwitchScore nowMs { acc with pool := some { priority := q1 } } <
        calculateSwitchScore nowMs { acc with pool := some { priority := q2 } }) ∧
      (∀ (u : UsageInfo) (w : UsageWindow) (x y : ℚ), x ≤ y →
        calculateSwitchScore nowMs
          { acc with usage := some { u with primaryWindow := some { w with usedPercent := y } } } ≤
        calculateSwitchScore nowMs
          { acc with usage := some { u with primaryWindow := some { w with usedPercent := x } } }) ∧
      (∀ (u : UsageInfo) (w : UsageWindow) (x y : ℚ), x ≤ y →
        calculateSwitchScore nowMs
          { acc with usage := some { u with secondaryWindow := some { w with usedPercent := y } } } ≤
        calculateSwitchScore nowMs
          { acc with usage := some { u with secondaryWindow := some { w with usedPercent := x } } }) := by
  intro nowMs acc
  refine ⟨?_, ?_, ?_⟩
  · intro q1 q2 h
    simp [calculateSwitchScore, primaryPercentForScore, secondaryPercentForScore,
      secondaryResetsAt]
    linarith
  · intro u w x y h
    simp [calculateSwitchScore, primaryPercentForScore, secondaryPercentForScore,
      secondaryResetsAt]
    linarith
  · intro u w x y h
    simp [calculateSwitchScore, primaryPercentForScore, secondaryPercentForScore,
      secondaryResetsAt]
    linarith

/-- Witness for claim C8: strict priority monotonicity applied at priorities
1 < 2 on the concrete account B. -/
theorem claim_C8_witness :
    calculateSwitchScore 0 { accB with pool := some { priority := 1 } } <
    calculateSwitchScore 0 { accB with pool := some { priority := 2 } } :=
  (claim_C8 0 accB).1 1 2 (by norm_num)

/-- The normalized pool priority is always an integer in [1,10]. -/
theorem normalizePoolPriority_range (input : PoolMetaInput) :
    ∃ k : ℤ, normalizePoolPriority input = ((k : ℤ) : ℚ) ∧ 1 ≤ k ∧ k ≤ 10 := by
  cases input with
  | num v =>
    exact ⟨max 1 (min 10 (jsRound v)), rfl, le_max_left _ _,
      max_le (by norm_num) (min_le_left _ _)⟩
  | nanNum =>
    exact ⟨5, by norm_num [normalizePoolPriority, DEFAULT_ACCOUNT_POOL_METADATA],
      by norm_num, by norm_num⟩
  | obj p =>
    cases p with
    | none =>
      exact ⟨5, by norm_num [normalizePoolPriority, DEFAULT_ACCOUNT_POOL_METADATA, jsRound],
        by norm_num, by norm_num⟩
    | some q =>
      exact ⟨max 1 (min 10 (jsRound q)), rfl, le_max_left _ _,
        max_le (by norm_num) (min_le_left _ _)⟩
  | other =>
    exact ⟨5, by norm_num [normalizePoolPriority, DEFAULT_ACCOUNT_POOL_METADATA, jsRound],
      by norm_num, by norm_num⟩

/-- Claim C9: every externally supplied priority is normalized on ingestion
to an integer in [1,10] (round, then clamp), with non-numeric input falling
back to the default 5; 13 normalizes to 10 and 0 to 1; and both ingestion
sites — the refresh scan merge and the pool-metadata update — only ever store
a priority in [1,10]. -/
theorem claim_C9 :
    (∀ input : PoolMetaInput, ∃ k : ℤ,
      normalizePoolPriority input = ((k : ℤ) : ℚ) ∧ 1 ≤ k ∧ k ≤ 10) ∧
    normalizePoolPriority (PoolMetaInput.num 13) = 10 ∧
    normalizePoolPriority (PoolMetaInput.num 0) = 1 ∧
    normalizePoolPriority PoolMetaInput.other = 5 ∧
    normalizePoolPriority PoolMetaInput.nanNum = 5 ∧
    (∀ (settings : AppSettings) (cache : String → Option UsageCacheEntry) (nowMs : ℚ)
       (account : AccountInfo), ∃ k : ℤ,
      (refreshSeedAccount settings cache nowMs account).pool.map AccountPoolMetadata.priority
        = some ((k : ℤ) : ℚ) ∧ 1 ≤ k ∧ k ≤ 10) ∧
    (∀ (accountId : String) (metadata : PoolMetaInput) (accounts : List AccountInfo),
      ∀ acc ∈ updateAccountPoolMetadata accountId metadata accounts,
        acc.id = accountId → ∃ k : ℤ,
          acc.pool.map AccountPoolMetadata.priority = some ((k : ℤ) : ℚ) ∧ 1 ≤ k ∧ k ≤ 10) := by
  refine ⟨normalizePoolPriority_range, ?_, ?_, ?_, ?_, ?_, ?_⟩
  · norm_num [normalizePoolPriority, jsRound]
  · norm_num [normalizePoolPriority, jsRound]
  · norm_num [normalizePoolPriority, DEFAULT_ACCOUNT_POOL_METADATA, jsRound]
  · norm_num [normalizePoolPriority, DEFAULT_ACCOUNT_POOL_METADATA]
  · intro settings cache nowMs account
    have hpool : (refreshSeedAccount settings cache nowMs account).pool
        = some (normalizePoolMetadata ((settings.accountPool account.id).orElse
            (fun _ => settings.accountPool account.filePath))) := rfl
    rcases normalizePoolPriority_range
        (((settings.accountPool account.id).orElse
          (fun _ => settings.accountPool account.filePath)).getD PoolMetaInput.other)
      with ⟨k, hk, h1, h10⟩
    refine ⟨k, ?_, h1, h10⟩
    rw [hpool]
    simp [normalizePoolMetadata, hk]
  · intro accountId metadata accounts acc hmem hid
    simp only [updateAccountPoolMetadata] at hmem
    rcases List.mem_map.mp hmem with ⟨orig, horig, heq⟩
    by_cases h : orig.id = accountId
    · rw [if_pos h] at heq
      rcases normalizePoolPriority_range metadata with ⟨k, hk, h1, h10⟩
      refine ⟨k, ?_, h1, h10⟩
      rw [← heq]
      simp [normalizePoolMetadata, hk]
    · rw [if_neg h] at heq
      rw [heq] at h
      exact absurd hid h

/-- Witness for claim C9: the concrete normalization of the external value
13, read off the claim. -/
theorem claim_C9_witness :
    normalizePoolPriority (PoolMetaInput.num 13) = 10 :=
  claim_C9.2.1

/-- Active account E: non-expired, below 99% in both windows, highest score. -/
def accE : AccountInfo :=
  { id := "e", name := "E", isActive := true, filePath := "e",
    usage := some { primaryWindow := some { usedPercent := 10 },
                    secondaryWindow := some { usedPercent := 10 } },
    pool := some { priority := 9 } }

/-- Non-active account F: qualifies, but scores below E. -/
def accF : AccountInfo :=
  { id := "f", name := "F", isActive := false, filePath := "f",
    usage := some { primaryWindow := some { usedPercent := 50 },
                    secondaryWindow := some { usedPercent := 50 } },
    pool := some { priority := 1 } }

/-- Claim C10: `bestCandidateFilePath` does not exclude the currently active
account: for the concrete set where the active account E is non-expired,
below 99% in both windows and of maximal score, it returns E itself; only
`rankedCandidates` excludes the active account (here it returns just F). -/
theorem claim_C10 :
    accE.isActive = true ∧ accE.isTokenExpired = false ∧
    primaryPercentOrZero accE < 99 ∧ secondaryPercentOrZero accE < 99 ∧
    (∀ a ∈ [accE, accF], calculateSwitchScore 0 a ≤ calculateSwitchScore 0 accE) ∧
    bestCandidateFilePath 0 [accE, accF] = some ("e") ∧
    rankedCandidates 0 [accE, accF] = [accF] := by
  refine ⟨rfl, rfl, ?_, ?_, ?_, ?_, ?_⟩
  · norm_num [primaryPercentOrZero, accE]
  · norm_num [secondaryPercentOrZero, accE]
  · intro a ha
    rcases List.mem_pair.mp ha with h | h
    · rw [h]
    · rw [h]
      norm_num [calculateSwitchScore, primaryPercentForScore, secondaryPercentForScore,
        secondaryResetsAt, accE, accF, MAX_SAFE_INTEGER, DEFAULT_ACCOUNT_POOL_METADATA]
  · norm_num [bestCandidateFilePath, accE, accF, List.filter, primaryPercentOrZero,
      secondaryPercentOrZero, List.mergeSort, List.splitInTwo, List.merge,
      switchScoreDesc, calculateSwitchScore, primaryPercentForScore,
      secondaryPercentForScore, secondaryResetsAt, MAX_SAFE_INTEGER,
      DEFAULT_ACCOUNT_POOL_METADATA]
  · norm_num [rankedCandidates, accE, accF, List.filter, primaryPercentOrZero,
      secondaryPercentOrZero, List.mergeSort, List.splitInTwo, List.merge,
      switchScoreDesc, calculateSwitchScore, primaryPercentForScore,
      secondaryPercentForScore, secondaryResetsAt, MAX_SAFE_INTEGER,
      DEFAULT_ACCOUNT_POOL_METADATA]

end CodeRevolver
